import Mathlib

/-!
Verification development for the GitHub-to-Telegram activity notifier
implemented in src/app.py.  The Python program is shallowly embedded:
pure string manipulation is translated to executable Lean functions over
the character-list model of strings, dictionary lookups that may raise
KeyError become Except values, the outbound HTTP call of the sink client
becomes an oracle parameter, and the single polling cycle
fetch_github_events becomes a function from the fetch outcome and the
current cursor to an explicit record of its observable effects (cursor
writes, attempted sink calls, send results, whether the cycle-level
exception handler fired).
-/

namespace LoaApp

/-! ### Python string primitives, modelled on lists of characters -/

/-- Python slicing s[:n]: the first n characters of the string. -/
def pySlice (s : String) (n : Nat) : String :=
  String.mk (s.toList.take n)

/-- Python s.split with a newline, index 0: the characters strictly before
the first newline, or the whole string when it has no newline. -/
def firstLine (s : String) : String :=
  String.mk (s.toList.takeWhile (fun c => c ≠ '\n'))

/-- Python s.lower, restricted to the ASCII case mapping. -/
def pyLower (s : String) : String :=
  String.mk (s.toList.map Char.toLower)

/-- Fuelled worker for pyReplace; the fuel is an upper bound on the number
of characters still to be consumed, so the recursion is structural. -/
def replaceFuel (pat rep : List Char) : Nat → List Char → List Char
  | _, [] => []
  | 0, l => l
  | fuel + 1, c :: rest =>
    if pat.isPrefixOf (c :: rest) then
      rep ++ replaceFuel pat rep fuel (List.drop pat.length (c :: rest))
    else
      c :: replaceFuel pat rep fuel rest

/-- Python s.replace(pat, rep): replace every non-overlapping occurrence,
scanning left to right.  The program only calls it with a non-empty
pattern; an empty pattern returns the string unchanged here. -/
def pyReplace (s pat rep : String) : String :=
  if pat.toList = [] then s
  else String.mk (replaceFuel pat.toList rep.toList s.toList.length s.toList)

/-- Worker for containment testing: does pat occur as a contiguous
sub-list of the second argument? -/
def containsSub (pat : List Char) : List Char → Bool
  | [] => pat.isEmpty
  | c :: rest => pat.isPrefixOf (c :: rest) || containsSub pat rest

/-- Python membership test: needle in hay, for strings. -/
def pyIn (needle hay : String) : Bool :=
  containsSub needle.toList hay.toList

/-- Worker for pyTitle; the boolean records whether the previous character
was alphabetic. -/
def titleAux : List Char → Bool → List Char
  | [], _ => []
  | c :: rest, prevAlpha =>
    if c.isAlpha then
      (if prevAlpha then c.toLower else c.toUpper) :: titleAux rest true
    else
      c :: titleAux rest false

/-- Python s.title, restricted to ASCII letters: the first letter of each
alphabetic run is uppercased, the rest lowercased. -/
def pyTitle (s : String) : String :=
  String.mk (titleAux s.toList false)

/-- Worker for lastComponent, accumulating the current segment reversed. -/
def lastCompAux : List Char → List Char → List Char
  | [], acc => acc.reverse
  | c :: rest, acc => if c = '/' then lastCompAux rest [] else lastCompAux rest (c :: acc)

/-- Python s.split with a slash, index -1: the suffix after the final
slash, or the whole string when it has none. -/
def lastComponent (s : String) : String :=
  String.mk (lastCompAux s.toList [])

/-- Join a list of strings with a separator, as the newline join used for
the commit preview. -/
def joinWith (sep : String) : List String → String
  | [] => ""
  | [x] => x
  | x :: y :: rest => x ++ sep ++ joinWith sep (y :: rest)

/-! ### Model of the timestamp parsing used by format_datetime

The program hands the string, with every Z replaced by a numeric UTC
offset, to the Python standard library parser datetime.fromisoformat and
formats the result.  That parser is not part of the repository, so it is
modelled here: it accepts YYYY-MM-DD, optionally followed by a one-character
separator and HH, HH:MM, or HH:MM:SS with an optional fractional part of
exactly three or six digits, optionally followed by a numeric offset
sign HH:MM with optional :SS; every field is range-checked and anything
else is rejected. -/

/-- The numeric value of a decimal digit character, if it is one. -/
def digitVal (c : Char) : Option Nat :=
  if c.isDigit then some (c.toNat - 48) else none

/-- Read exactly two decimal digits. -/
def read2 : List Char → Option (Nat × List Char)
  | a :: b :: rest =>
    match digitVal a, digitVal b with
    | some x, some y => some (10 * x + y, rest)
    | _, _ => none
  | _ => none

/-- Read exactly four decimal digits. -/
def read4 : List Char → Option (Nat × List Char)
  | a :: b :: c :: d :: rest =>
    match digitVal a, digitVal b, digitVal c, digitVal d with
    | some w, some x, some y, some z => some (1000 * w + 100 * x + 10 * y + z, rest)
    | _, _, _, _ => none
  | _ => none

/-- Consume one expected character. -/
def expectChar (c : Char) : List Char → Option (List Char)
  | x :: rest => if x = c then some rest else none
  | _ => none

/-- Consume a fractional-seconds field of exactly three or six digits. -/
def parseFrac : List Char → Option (List Char)
  | a :: b :: c :: rest =>
    if a.isDigit && b.isDigit && c.isDigit then
      match rest with
      | d :: e :: f :: rest2 =>
        if d.isDigit && e.isDigit && f.isDigit then some rest2
        else if d.isDigit then none
        else some rest
      | d :: _ => if d.isDigit then none else some rest
      | [] => some rest
    else none
  | _ => none

/-- Consume an optional trailing UTC-offset field and require the end of
the input. -/
def parseOffset : List Char → Option Unit
  | [] => some ()
  | s :: rest =>
    if s = '+' || s = '-' then do
      let (oh, r1) ← read2 rest
      let r2 ← expectChar ':' r1
      let (om, r3) ← read2 r2
      if oh ≤ 23 && om ≤ 59 then
        match r3 with
        | [] => some ()
        | ':' :: r4 => do
          let (os, r5) ← read2 r4
          if os ≤ 59 && r5 = [] then some () else none
        | _ => none
      else none
    else none

/-- Consume the time-of-day part, with its optional minute, second and
fractional fields, followed by the optional offset. -/
def parseTimePart (cs : List Char) : Option (Nat × Nat × Nat) := do
  let (hh, r1) ← read2 cs
  match r1 with
  | ':' :: r2 => do
    let (mi, r3) ← read2 r2
    match r3 with
    | ':' :: r4 => do
      let (ss, r5) ← read2 r4
      match r5 with
      | '.' :: r6 => do
        let r7 ← parseFrac r6
        let _ ← parseOffset r7
        some (hh, mi, ss)
      | _ => do
        let _ ← parseOffset r5
        some (hh, mi, ss)
    | _ => do
      let _ ← parseOffset r3
      some (hh, mi, 0)
  | _ => do
    let _ ← parseOffset r1
    some (hh, 0, 0)

/-- Raw field extraction for the ISO-8601 parser, before range checks. -/
def rawParse (cs : List Char) : Option (Nat × Nat × Nat × Nat × Nat × Nat) := do
  let (y, r1) ← read4 cs
  let r2 ← expectChar '-' r1
  let (mo, r3) ← read2 r2
  let r4 ← expectChar '-' r3
  let (d, r5) ← read2 r4
  match r5 with
  | [] => some (y, mo, d, 0, 0, 0)
  | _sep :: r6 => do
    let (hh, mi, ss) ← parseTimePart r6
    some (y, mo, d, hh, mi, ss)

/-- The naive fields of a parsed Python datetime value. -/
structure PyDateTime where
  year : Nat
  month : Nat
  day : Nat
  hour : Nat
  minute : Nat
  second : Nat
deriving DecidableEq, Repr

/-- Gregorian leap-year rule, as the Python calendar uses it. -/
def isLeap (y : Nat) : Bool :=
  (y % 4 == 0 && y % 100 != 0) || y % 400 == 0

/-- Number of days in a month of a given year. -/
def daysInMonth (y m : Nat) : Nat :=
  if m = 2 then (if isLeap y then 29 else 28)
  else if m = 4 || m = 6 || m = 9 || m = 11 then 30
  else 31

/-- Range validation performed by the datetime constructor. -/
def validDT (y mo d hh mi ss : Nat) : Bool :=
  1 ≤ y && y ≤ 9999 && 1 ≤ mo && mo ≤ 12 && 1 ≤ d && d ≤ daysInMonth y mo &&
    hh ≤ 23 && mi ≤ 59 && ss ≤ 59

/-- Modelled from the spec: the Python standard library parser
datetime.fromisoformat, which is outside the repository; it returns the
validated naive fields of the timestamp or fails. -/
def fromisoformat (s : String) : Option PyDateTime :=
  match rawParse s.toList with
  | none => none
  | some (y, mo, d, hh, mi, ss) =>
    if validDT y mo d hh mi ss then some ⟨y, mo, d, hh, mi, ss⟩ else none

/-- Two-digit zero padding, as the d formatting directives of strftime
produce for values below one hundred. -/
def pad2 (n : Nat) : String :=
  if n < 10 then "0" ++ Nat.repr n else Nat.repr n

/-- The strftime pattern of the program: month/day hour:minute. -/
def strftimeMdHm (dt : PyDateTime) : String :=
  pad2 dt.month ++ "/" ++ pad2 dt.day ++ " " ++ pad2 dt.hour ++ ":" ++ pad2 dt.minute

/-- format_datetime from src/app.py: replace Z by a numeric UTC offset,
parse, and format, with a catch-all fallback to the string unknown. -/
def format_datetime (s : String) : String :=
  match fromisoformat (pyReplace s "Z" "+00:00") with
  | some dt => strftimeMdHm dt
  | none => "unknown"

/-! ### The event data model

A fetched event is a JSON object; the fields the program reads
unconditionally (id, type, created_at, repo.name, actor.login) are plain
fields, while the type-specific payload sub-fields it indexes into are
Option fields, where none models an absent key whose lookup raises
KeyError. -/

/-- One element of the commits list of a push payload. -/
structure Commit where
  message : Option String
deriving DecidableEq, Repr

/-- The pull_request object of a pull-request payload; the two-step
lookup of the author login is collapsed into one optional field. -/
structure PullRequestData where
  title : Option String
  userLogin : Option String
  body : Option String
  htmlUrl : Option String
deriving DecidableEq, Repr

/-- The forkee object of a fork payload. -/
structure ForkeeData where
  fullName : Option String
  ownerLogin : Option String
  htmlUrl : Option String
deriving DecidableEq, Repr

/-- The release object of a release payload. -/
structure ReleaseData where
  tagName : Option String
  name : Option String
  htmlUrl : Option String
deriving DecidableEq, Repr

/-- The type-specific payload object of an event. -/
structure EventPayload where
  commits : Option (List Commit)
  ref : Option String
  pull_request : Option PullRequestData
  action : Option String
  forkee : Option ForkeeData
  release : Option ReleaseData
deriving DecidableEq, Repr

/-- A fetched activity event. -/
structure Event where
  id : String
  type : String
  createdAt : String
  repoName : String
  actorLogin : String
  payload : EventPayload
deriving DecidableEq, Repr

/-- A payload with every optional sub-field absent. -/
def emptyPayload : EventPayload := ⟨none, none, none, none, none, none⟩

/-- Look up an optional sub-field, raising the Python KeyError as an
Except error when it is absent. -/
def require {α : Type} (field : String) : Option α → Except String α
  | some a => Except.ok a
  | none => Except.error ("KeyError: " ++ field)

/-! ### Notification sink client -/

/-- One inline keyboard button: label text and target URL. -/
structure InlineButton where
  label : String
  url : String
deriving DecidableEq, Repr

/-- create_inline_buttons from src/app.py: a repo-link row, plus a
details row when an additional URL is given. -/
def create_inline_buttons (repo_name : String) (additional_url : Option String) :
    List (List InlineButton) :=
  let repo_url := "https://github.com/" ++ repo_name
  let keyboard := [[⟨"🔗 View Repo", repo_url⟩]]
  match additional_url with
  | some u => keyboard ++ [[⟨"📋 Details", u⟩]]
  | none => keyboard

/-- One invocation of the sink client: the message text and the optional
inline keyboard passed to send_telegram_message. -/
structure SinkCall where
  text : String
  buttons : Option (List (List InlineButton))
deriving DecidableEq, Repr

/-- The outcome of the outbound HTTP POST performed inside
send_telegram_message: a raised transport exception (connection error or
timeout) or a response with a status code. -/
inductive PostOutcome where
  | err (msg : String)
  | resp (status : Nat)
deriving DecidableEq, Repr

/-- send_telegram_message from src/app.py, with the network modelled as
an oracle from the call to its outcome: a transport exception or a
raise_for_status failure (status 400 to 599) is caught and reported as
false, anything else returns true; the function itself never raises. -/
def send_telegram_message (post : SinkCall → PostOutcome) (call : SinkCall) : Bool :=
  match post call with
  | PostOutcome.err _ => false
  | PostOutcome.resp status => if 400 ≤ status ∧ status < 600 then false else true

/-! ### Renderers -/

/-- get_commit_emoji from src/app.py. -/
def get_commit_emoji (message : String) : String :=
  let msg := pyLower message
  if ["fix", "bug", "patch"].any (fun w => pyIn w msg) then "🐛"
  else if ["feat", "add", "new"].any (fun w => pyIn w msg) then "✨"
  else if ["update", "improve", "enhance"].any (fun w => pyIn w msg) then "⚡"
  else if ["docs", "readme"].any (fun w => pyIn w msg) then "📚"
  else if ["style", "format"].any (fun w => pyIn w msg) then "💄"
  else if ["test"].any (fun w => pyIn w msg) then "🧪"
  else if ["refactor", "clean"].any (fun w => pyIn w msg) then "♻️"
  else "📝"

/-- The commit-message display step of process_push_event: reduce to the
first line, then truncate to 45 characters with an ellipsis marker when
longer. -/
def commitMessageLine (m : String) : String :=
  let message := firstLine m
  if message.length > 45 then pySlice message 45 ++ "..." else message

/-- One line of the commit preview: emoji chosen from the truncated
message, then the message. -/
def commitPreview (c : Commit) : Except String String :=
  match c.message with
  | none => Except.error "KeyError: message"
  | some m =>
    let message := commitMessageLine m
    Except.ok (get_commit_emoji message ++ " " ++ message)

/-- The commits block of the push message: preview of the first three
commits joined by newlines, a more-line when there are more than three,
and a fixed placeholder when the list is empty; also yields the commit
count used in the footer. -/
def commitsBlock (commits : List Commit) : Except String (String × Nat) :=
  if commits.isEmpty then Except.ok ("📝 <i>No details available</i>", 0)
  else do
    let commits_preview ← (commits.take 3).mapM commitPreview
    let commits_text := joinWith "\n" commits_preview
    let commit_count := commits.length
    let commits_text :=
      if commit_count > 3 then
        commits_text ++ "\n<i>... and " ++ Nat.repr (commit_count - 3) ++ " more</i>"
      else commits_text
    Except.ok (commits_text, commit_count)

/-- process_push_event from src/app.py, returning the sink call it
performs, or the exception it raises. -/
def process_push_event (event : Event) : Except String SinkCall := do
  let repo := event.repoName
  let time_formatted := format_datetime event.createdAt
  let commits := event.payload.commits.getD []
  let branch := pyReplace (event.payload.ref.getD "") "refs/heads/" ""
  let repo_short := lastComponent repo
  let (commits_text, commit_count) ← commitsBlock commits
  Except.ok ⟨"🚀 <b>" ++ repo_short ++ "</b> • <code>" ++ branch ++ "</code>\n\n<blockquote>\n"
      ++ commits_text ++ "\n</blockquote>\n\n<i>🕐 " ++ time_formatted ++ " • "
      ++ Nat.repr commit_count ++ " commit" ++ (if commit_count ≠ 1 then "s" else "") ++ "</i>",
    some (create_inline_buttons repo none)⟩

/-- The pull-request title display step: truncate to 60 characters with
an ellipsis marker when longer.  There is no first-line reduction. -/
def prTitleLine (t : String) : String :=
  if t.length > 60 then pySlice t 60 ++ "..." else t

/-- The pull-request description display step: truncate to 80 characters
with an ellipsis marker when longer.  There is no first-line
reduction. -/
def prBodyLine (b : String) : String :=
  if b.length > 80 then pySlice b 80 ++ "..." else b

/-- The action-to-emoji lookup of process_pull_request_event, with its
default. -/
def actionEmojiFor (action : String) : String :=
  if action = "opened" then "📤"
  else if action = "closed" then "🔒"
  else if action = "merged" then "🎉"
  else if action = "reopened" then "🔄"
  else if action = "edited" then "✏️"
  else "📋"

/-- process_pull_request_event from src/app.py. -/
def process_pull_request_event (event : Event) : Except String SinkCall := do
  let repo := event.repoName
  let time_formatted := format_datetime event.createdAt
  let pr ← require "pull_request" event.payload.pull_request
  let action ← require "action" event.payload.action
  let repo_short := lastComponent repo
  let action_emoji := actionEmojiFor action
  let title0 ← require "title" pr.title
  let title := prTitleLine title0
  let login ← require "login" pr.userLogin
  let text := action_emoji ++ " <b>PR " ++ pyTitle action ++ "</b> • <b>" ++ repo_short
    ++ "</b>\n\n<blockquote>\n<b>" ++ title ++ "</b>\n<i>by @" ++ login ++ "</i>"
  let text :=
    match pr.body with
    | some b => if 0 < b.length then text ++ "\n\n💬 " ++ prBodyLine b else text
    | none => text
  let text := text ++ "\n</blockquote>\n\n<i>🕐 " ++ time_formatted ++ "</i>"
  let html_url ← require "html_url" pr.htmlUrl
  Except.ok ⟨text, some (create_inline_buttons repo (some html_url))⟩

/-- process_fork_event from src/app.py. -/
def process_fork_event (event : Event) : Except String SinkCall := do
  let repo := event.repoName
  let time_formatted := format_datetime event.createdAt
  let forkee ← require "forkee" event.payload.forkee
  let repo_short := lastComponent repo
  let full_name ← require "full_name" forkee.fullName
  let fork_name := lastComponent full_name
  let owner ← require "login" forkee.ownerLogin
  let html_url ← require "html_url" forkee.htmlUrl
  Except.ok ⟨"🍴 <b>Fork Created</b>\n\n<blockquote>\n<b>" ++ repo_short ++ "</b> → <b>"
      ++ fork_name ++ "</b>\n<i>by @" ++ owner ++ "</i>\n</blockquote>\n\n<i>🕐 "
      ++ time_formatted ++ "</i>",
    some (create_inline_buttons repo (some html_url))⟩

/-- process_star_event from src/app.py. -/
def process_star_event (event : Event) : Except String SinkCall :=
  let repo := event.repoName
  let time_formatted := format_datetime event.createdAt
  let repo_short := lastComponent repo
  Except.ok ⟨"⭐ <b>New Star!</b>\n\n<blockquote>\n<b>" ++ repo_short
      ++ "</b>\n<i>starred by @" ++ event.actorLogin ++ "</i>\n</blockquote>\n\n<i>🕐 "
      ++ time_formatted ++ "</i>",
    some (create_inline_buttons repo none)⟩

/-- process_release_event from src/app.py. -/
def process_release_event (event : Event) : Except String SinkCall := do
  let repo := event.repoName
  let time_formatted := format_datetime event.createdAt
  let release ← require "release" event.payload.release
  let repo_short := lastComponent repo
  let tag ← require "tag_name" release.tagName
  let nm ← require "name" release.name
  let html_url ← require "html_url" release.htmlUrl
  Except.ok ⟨"🎉 <b>New Release!</b>\n\n<blockquote>\n<b>" ++ repo_short ++ "</b> <code>"
      ++ tag ++ "</code>\n<b>" ++ nm ++ "</b>\n</blockquote>\n\n<i>🕐 "
      ++ time_formatted ++ "</i>",
    some (create_inline_buttons repo (some html_url))⟩

/-! ### The dispatch cycle -/

/-- The event types the dispatch chain of fetch_github_events
recognizes. -/
def recognizedTypes : List String :=
  ["PushEvent", "PullRequestEvent", "ForkEvent", "WatchEvent", "ReleaseEvent"]

/-- The per-event dispatch chain inside the processing loop of
fetch_github_events: the sink call the matching renderer performs, none
for a silently skipped unrecognized type, or the exception the renderer
raises. -/
def classifyProcess (event : Event) : Except String (Option SinkCall) :=
  if event.type = "PushEvent" then (process_push_event event).map some
  else if event.type = "PullRequestEvent" then (process_pull_request_event event).map some
  else if event.type = "ForkEvent" then (process_fork_event event).map some
  else if event.type = "WatchEvent" then (process_star_event event).map some
  else if event.type = "ReleaseEvent" then (process_release_event event).map some
  else Except.ok none

/-- The delta-extraction loop of fetch_github_events: accumulate events
from the front until one whose id equals the cursor id is met (that one
excluded), or the list ends. -/
def extractDelta : List Event → String → List Event
  | [], _ => []
  | e :: rest, lastId => if e.id = lastId then [] else e :: extractDelta rest lastId

/-- The anti-spam cap of fetch_github_events: at most three events per
check, keeping the front of the newest-first list. -/
def limitNewEvents (l : List Event) : List Event :=
  if l.length > 3 then l.take 3 else l

/-- The processing loop of fetch_github_events over the
oldest-first batch: each recognized event yields one sink call whose
boolean result is ignored; a renderer exception aborts the rest of the
loop and propagates to the cycle-level handler.  Returns the attempted
calls in order, their results, and whether an exception escaped. -/
def dispatchBatch (post : SinkCall → PostOutcome) :
    List Event → List SinkCall × List Bool × Bool
  | [] => ([], [], false)
  | e :: rest =>
    match classifyProcess e with
    | Except.error _ => ([], [], true)
    | Except.ok none => dispatchBatch post rest
    | Except.ok (some call) =>
      let r := send_telegram_message post call
      match dispatchBatch post rest with
      | (calls, results, er) => (call :: calls, r :: results, er)

/-- The sink calls a batch would perform when no renderer raises. -/
def renderedSends (l : List Event) : List SinkCall :=
  l.filterMap (fun e => ((classifyProcess e).toOption).bind id)

/-- The startup message sent on the first armed cycle, parametrized by
the monitored account name and the formatted current time. -/
def startup_message (username nowText : String) : String :=
  "🚀 <b>GitHub Monitor Active!</b>\n\n<blockquote>\n👤 <b>Watching:</b> <code>" ++ username
    ++ "</code>\n🕐 <b>Started:</b> <code>" ++ nowText
    ++ "</code>\n</blockquote>\n\n<i>🔔 Ready to notify you about new activities!</i>"

/-- The observable effects of one call of fetch_github_events: the
cursor afterwards, the values assigned to it in order, the attempted sink
calls in order with their results, and whether a cycle-level exception
handler fired. -/
structure CycleResult where
  cursor : Option String
  writes : List String
  sends : List SinkCall
  sendResults : List Bool
  errorLogged : Bool
deriving DecidableEq, Repr

/-- fetch_github_events from src/app.py, over the outcome of the HTTP
fetch (an Except models a network, status or JSON failure) and the
current value of the module-level cursor last_event_id.  The whole body
runs inside one try block whose handlers log and return. -/
def fetch_github_events (post : SinkCall → PostOutcome) (username nowText : String)
    (fetched : Except String (List Event)) (last_event_id : Option String) : CycleResult :=
  match fetched with
  | Except.error _ => ⟨last_event_id, [], [], [], true⟩
  | Except.ok events =>
    match events with
    | [] => ⟨last_event_id, [], [], [], false⟩
    | e0 :: tl =>
      match last_event_id with
      | none =>
        let call : SinkCall := ⟨startup_message username nowText, none⟩
        ⟨some e0.id, [e0.id], [call], [send_telegram_message post call], false⟩
      | some lastId =>
        let new_events := extractDelta (e0 :: tl) lastId
        if new_events = [] then ⟨some lastId, [], [], [], false⟩
        else
          match dispatchBatch post (limitNewEvents new_events).reverse with
          | (calls, results, true) => ⟨some lastId, [], calls, results, true⟩
          | (calls, results, false) => ⟨some e0.id, [e0.id], calls, results, false⟩

/-! ### Concrete sample data used by witnesses and counterexamples -/

/-- A well-formed star event with a given id. -/
def mkStar (i : String) : Event :=
  ⟨i, "WatchEvent", "2024-05-06T07:08:09Z", "octo/repo", "alice", emptyPayload⟩

/-- A pull-request event whose payload lacks the pull_request sub-field,
so its renderer raises KeyError. -/
def badPR (i : String) : Event :=
  ⟨i, "PullRequestEvent", "2024-05-06T07:08:09Z", "octo/repo", "alice", emptyPayload⟩

/-- An event of a type outside the recognized set. -/
def gollumEv : Event :=
  ⟨"g1", "GollumEvent", "2024-05-06T07:08:09Z", "octo/repo", "alice", emptyPayload⟩

/-- A network oracle whose every call succeeds with status 200. -/
def postOk : SinkCall → PostOutcome := fun _ => PostOutcome.resp 200

/-- A network oracle whose every call raises a timeout. -/
def postFail : SinkCall → PostOutcome := fun _ => PostOutcome.err "timeout"

/-- Newest-first fetch list for the render-failure scenario: two good
star events around a broken pull-request event, with the cursor event
last. -/
def cexEvents : List Event := [mkStar "3", badPR "2", mkStar "1", mkStar "c0"]

/-- An 80-character single-line commit message. -/
def c80 : String :=
  "01234567890123456789012345678901234567890123456789012345678901234567890123456789"

/-! ### Helper lemmas -/

/-- The delta loop keeps the whole list when no id matches the cursor. -/
theorem extractDelta_of_not_mem (lastId : String) :
    ∀ l : List Event, (∀ e ∈ l, e.id ≠ lastId) → extractDelta l lastId = l := by
  intro l
  induction l with
  | nil => intro _; rfl
  | cons e rest ih =>
    intro h
    have he : e.id ≠ lastId := h e (List.mem_cons_self e rest)
    simp only [extractDelta, if_neg he]
    exact congrArg (e :: ·) (ih fun x hx => h x (List.mem_cons_of_mem e hx))

/-- The delta loop stops exactly at the first event whose id matches the
cursor. -/
theorem extractDelta_append (lastId : String) (e : Event) (suffix : List Event)
    (he : e.id = lastId) :
    ∀ pre : List Event, (∀ x ∈ pre, x.id ≠ lastId) →
      extractDelta (pre ++ e :: suffix) lastId = pre := by
  intro pre
  induction pre with
  | nil => intro _; simp [extractDelta, he]
  | cons x rest ih =>
    intro h
    have hx : x.id ≠ lastId := h x (List.mem_cons_self x rest)
    simp only [List.cons_append, extractDelta, if_neg hx]
    exact congrArg (x :: ·) (ih fun y hy => h y (List.mem_cons_of_mem x hy))

/-! ### Claims -/

/-- Claim C1: for every fetched event list and every set cursor, the
extracted delta is exactly the prefix of the list (scanned from index 0,
newest-first) strictly before the first event whose id equals the cursor
id, that event and everything after it excluded; if no id in the list
equals the cursor id, the delta is the entire fetched list.  Ids are
compared only for equality. -/
theorem delta_is_prefix_before_cursor (events : List Event) (lastId : String) :
    ((∀ e ∈ events, e.id ≠ lastId) → extractDelta events lastId = events) ∧
    (∀ pre e suffix, events = pre ++ e :: suffix → e.id = lastId →
      (∀ x ∈ pre, x.id ≠ lastId) → extractDelta events lastId = pre) := by
  refine ⟨extractDelta_of_not_mem lastId events, ?_⟩
  intro pre e suffix hsplit he hpre
  rw [hsplit]
  exact extractDelta_append lastId e suffix he pre hpre

/-- Witness for C1, on the spec example: with fetch list of ids 0, 1, 2,
3 and cursor id 2, the delta is the events with ids 0 and 1. -/
theorem delta_is_prefix_before_cursor_witness :
    extractDelta [mkStar "0", mkStar "1", mkStar "2", mkStar "3"] "2" =
      [mkStar "0", mkStar "1"] :=
  (delta_is_prefix_before_cursor [mkStar "0", mkStar "1", mkStar "2", mkStar "3"] "2").2
    [mkStar "0", mkStar "1"] (mkStar "2") [mkStar "3"] rfl rfl (by decide)

/-- Claim C4: on a cycle entered with an unset cursor and a non-empty
fetched list, exactly one startup notification is sent, zero event
notifications are produced, and the cursor becomes the id of the first
element; with an empty fetched list the cursor stays unset and nothing is
sent. -/
theorem cold_start (post : SinkCall → PostOutcome) (u n : String) (e0 : Event)
    (tl : List Event) :
    fetch_github_events post u n (Except.ok (e0 :: tl)) none =
      ⟨some e0.id, [e0.id], [⟨startup_message u n, none⟩],
        [send_telegram_message post ⟨startup_message u n, none⟩], false⟩ ∧
    fetch_github_events post u n (Except.ok []) none = ⟨none, [], [], [], false⟩ :=
  ⟨rfl, rfl⟩

/-- Claim C7: a cycle whose fetch returns an empty list sends nothing and
leaves the cursor completely unchanged, and the delta of an empty list is
empty. -/
theorem empty_fetch_noop (post : SinkCall → PostOutcome) (u n : String)
    (c : Option String) :
    fetch_github_events post u n (Except.ok []) c = ⟨c, [], [], [], false⟩ ∧
    ∀ s, extractDelta [] s = [] := by
  refine ⟨?_, fun _ => rfl⟩
  cases c <;> rfl

/-- Claim C5: the dispatched batch is the three newest events of the
newest-first delta (all of it when shorter), reversed to oldest-first
order for dispatch; its length is the minimum of the delta length and the
cap, and older excess is dropped. -/
theorem throttle_keeps_newest (delta : List Event) :
    limitNewEvents delta = delta.take 3 ∧
    (limitNewEvents delta).reverse.length = min delta.length 3 ∧
    (limitNewEvents delta).reverse = (delta.take 3).reverse := by
  have h1 : limitNewEvents delta = delta.take 3 := by
    by_cases h : delta.length > 3
    · simp [limitNewEvents, h]
    · have hle : delta.length ≤ 3 := Nat.le_of_not_lt h
      simp [limitNewEvents, h, List.take_of_length_le hle]
  refine ⟨h1, ?_, congrArg List.reverse h1⟩
  rw [h1, List.length_reverse, List.length_take, Nat.min_comm]

/-- When every renderer in the batch succeeds, the processing loop
attempts exactly the rendered sink calls, records the oracle result for
each, and no exception escapes. -/
theorem dispatchBatch_ok (post : SinkCall → PostOutcome) :
    ∀ l : List Event, (∀ e ∈ l, ((classifyProcess e).toOption).isSome = true) →
      dispatchBatch post l =
        (renderedSends l, (renderedSends l).map (send_telegram_message post), false) := by
  intro l
  induction l with
  | nil => intro _; rfl
  | cons e rest ih =>
    intro h
    have he := h e (List.mem_cons_self e rest)
    have hrest := ih fun x hx => h x (List.mem_cons_of_mem e hx)
    cases hc : classifyProcess e with
    | error msg => rw [hc] at he; simp [Except.toOption] at he
    | ok v =>
      cases v with
      | none =>
        simp only [dispatchBatch, hc, renderedSends, List.filterMap_cons]
        simpa [hc, Except.toOption, renderedSends] using hrest
      | some call =>
        simp only [dispatchBatch, hc, hrest]
        simp [renderedSends, List.filterMap_cons, hc, Except.toOption, Option.bind]

/-- When the first failing renderer in the batch sits after a run of
successful events, the loop performs exactly the sends of that run and
the exception escapes to the cycle-level handler. -/
theorem dispatchBatch_error (post : SinkCall → PostOutcome) (bad : Event)
    (rest : List Event) (hbad : (classifyProcess bad).toOption = none) :
    ∀ good : List Event, (∀ e ∈ good, ((classifyProcess e).toOption).isSome = true) →
      dispatchBatch post (good ++ bad :: rest) =
        (renderedSends good, (renderedSends good).map (send_telegram_message post), true) := by
  intro good
  induction good with
  | nil =>
    intro _
    cases hc : classifyProcess bad with
    | error msg => simp [dispatchBatch, hc, renderedSends]
    | ok v => rw [hc] at hbad; simp [Except.toOption] at hbad
  | cons e rest2 ih =>
    intro h
    have he := h e (List.mem_cons_self e rest2)
    have hrest := ih fun x hx => h x (List.mem_cons_of_mem e hx)
    cases hc : classifyProcess e with
    | error msg => rw [hc] at he; simp [Except.toOption] at he
    | ok v =>
      cases v with
      | none =>
        simp only [List.cons_append, dispatchBatch, hc, renderedSends, List.filterMap_cons]
        simpa [hc, Except.toOption, renderedSends] using hrest
      | some call =>
        simp only [List.cons_append, dispatchBatch, hc]
        rw [show rest2.append (bad :: rest) = rest2 ++ bad :: rest from rfl, hrest]
        simp [renderedSends, List.filterMap_cons, hc, Except.toOption, Option.bind]

/-- Claim C3: in an armed cycle with a successful non-empty fetch and a
non-empty delta of renderable events, every event of the batch attempts
delivery and the cursor advances to the id of the first fetched element
whatever the network oracle answers, and the sink client reports false
instead of raising on a transport error or an unsuccessful status. -/
theorem send_failure_isolation (post : SinkCall → PostOutcome) (u n lastId : String)
    (e0 : Event) (tl : List Event)
    (hdelta : extractDelta (e0 :: tl) lastId ≠ [])
    (hok : ∀ e ∈ limitNewEvents (extractDelta (e0 :: tl) lastId),
      ((classifyProcess e).toOption).isSome = true) :
    fetch_github_events post u n (Except.ok (e0 :: tl)) (some lastId) =
      ⟨some e0.id, [e0.id],
        renderedSends (limitNewEvents (extractDelta (e0 :: tl) lastId)).reverse,
        (renderedSends (limitNewEvents (extractDelta (e0 :: tl) lastId)).reverse).map
          (send_telegram_message post), false⟩ ∧
    (∀ call m, post call = PostOutcome.err m → send_telegram_message post call = false) ∧
    (∀ call st, post call = PostOutcome.resp st → 400 ≤ st → st < 600 →
      send_telegram_message post call = false) := by
  refine ⟨?_, ?_, ?_⟩
  · have hok2 : ∀ e ∈ (limitNewEvents (extractDelta (e0 :: tl) lastId)).reverse,
        ((classifyProcess e).toOption).isSome = true :=
      fun e he => hok e (List.mem_reverse.mp he)
    have hd := dispatchBatch_ok post _ hok2
    simp only [fetch_github_events, if_neg hdelta, hd]
  · intro call m h
    simp [send_telegram_message, h]
  · intro call st h h4 h6
    simp [send_telegram_message, h, if_pos (And.intro h4 h6)]

/-- Witness for C3: with a three-event delta and an oracle that times out
on every call, all three sends are attempted and the cursor still
advances to the newest fetched id. -/
theorem send_failure_isolation_witness :
    fetch_github_events postFail "u" "t"
        (Except.ok [mkStar "3", mkStar "2", mkStar "1", mkStar "c0"]) (some "c0") =
      ⟨some "3", ["3"],
        renderedSends (limitNewEvents
          (extractDelta [mkStar "3", mkStar "2", mkStar "1", mkStar "c0"] "c0")).reverse,
        (renderedSends (limitNewEvents
          (extractDelta [mkStar "3", mkStar "2", mkStar "1", mkStar "c0"] "c0")).reverse).map
          (send_telegram_message postFail), false⟩ :=
  (send_failure_isolation postFail "u" "t" "c0" (mkStar "3")
    [mkStar "2", mkStar "1", mkStar "c0"] (by decide) (by decide)).1

/-- Claim C8: an event whose type tag lies outside the recognized set
yields no notification payload, performs no send, and the processing
loop continues through the remaining events without error. -/
theorem unrecognized_type_skip (e : Event) (h : e.type ∉ recognizedTypes) :
    classifyProcess e = Except.ok none ∧
    ∀ post rest, dispatchBatch post (e :: rest) = dispatchBatch post rest := by
  simp only [recognizedTypes, List.mem_cons, List.mem_singleton, not_or] at h
  obtain ⟨h1, h2, h3, h4, h5, -⟩ := h
  have hcp : classifyProcess e = Except.ok none := by
    simp [classifyProcess, h1, h2, h3, h4, h5]
  exact ⟨hcp, fun post rest => by simp [dispatchBatch, hcp]⟩

/-- Witness for C8 on the spec example: a GollumEvent is classified as a
skip and contributes nothing to the processing loop. -/
theorem unrecognized_type_skip_witness :
    classifyProcess gollumEv = Except.ok none ∧
    dispatchBatch postOk [gollumEv] = dispatchBatch postOk ([] : List Event) :=
  ⟨(unrecognized_type_skip gollumEv (by decide)).1,
    (unrecognized_type_skip gollumEv (by decide)).2 postOk []⟩

/-- Counterexample to C6 as stated: a cycle whose fetch succeeds with an
empty list mutates the cursor zero times, not exactly once. -/
theorem cursor_mutated_once_cex :
    (fetch_github_events postOk "u" "t" (Except.ok ([] : List Event)) (some "a")).writes = []
    ∧ ¬ (fetch_github_events postOk "u" "t"
          (Except.ok ([] : List Event)) (some "a")).writes.length = 1 :=
  ⟨rfl, by decide⟩

/-- Claim C6 amended: in every cycle the cursor is mutated at most once,
and when it is mutated the new value is the id of the first element of
the fetched list and becomes the resulting cursor; cycles with a fetch
failure, an empty fetch, an empty delta, or a renderer exception leave
the cursor unchanged and write nothing. -/
theorem cursor_written_at_most_once (post : SinkCall → PostOutcome) (u n : String)
    (fetched : Except String (List Event)) (c : Option String) :
    ((fetch_github_events post u n fetched c).writes = [] ∧
      (fetch_github_events post u n fetched c).cursor = c) ∨
    (∃ e0 tl, fetched = Except.ok (e0 :: tl) ∧
      (fetch_github_events post u n fetched c).writes = [e0.id] ∧
      (fetch_github_events post u n fetched c).cursor = some e0.id) := by
  cases fetched with
  | error m => exact Or.inl ⟨rfl, rfl⟩
  | ok events =>
    cases events with
    | nil => cases c <;> exact Or.inl ⟨rfl, rfl⟩
    | cons e0 tl =>
      cases c with
      | none => exact Or.inr ⟨e0, tl, rfl, rfl, rfl⟩
      | some lastId =>
        by_cases hdelta : extractDelta (e0 :: tl) lastId = []
        · exact Or.inl ⟨by simp [fetch_github_events, hdelta],
            by simp [fetch_github_events, hdelta]⟩
        · rcases hd : dispatchBatch post
              (limitNewEvents (extractDelta (e0 :: tl) lastId)).reverse with ⟨calls, results, er⟩
          cases er with
          | false =>
            exact Or.inr ⟨e0, tl, rfl, by simp [fetch_github_events, hdelta, hd],
              by simp [fetch_github_events, hdelta, hd]⟩
          | true =>
            exact Or.inl ⟨by simp [fetch_github_events, hdelta, hd],
              by simp [fetch_github_events, hdelta, hd]⟩

/-- Counterexample to C2 as stated: in a three-event batch whose middle
event has a malformed payload, the renderer exception aborts the rest of
the batch, only the oldest event was sent, and the cursor does not
advance; the claim would require two sends and an advanced cursor. -/
theorem render_failure_cex :
    (fetch_github_events postOk "u" "t" (Except.ok cexEvents) (some "c0")).cursor = some "c0"
    ∧ (fetch_github_events postOk "u" "t" (Except.ok cexEvents) (some "c0")).sends.length = 1
    ∧ (fetch_github_events postOk "u" "t" (Except.ok cexEvents) (some "c0")).errorLogged = true
    ∧ ¬ ((fetch_github_events postOk "u" "t" (Except.ok cexEvents) (some "c0")).sends.length = 2
        ∧ (fetch_github_events postOk "u" "t" (Except.ok cexEvents) (some "c0")).cursor
            = some "3") := by
  decide

/-- Claim C2 amended: a render failure on one event of the batch is
caught by the cycle-level handler and logged; events older than it that
were already dispatched keep their sends, but the failing event and every
newer event in the batch are skipped, and the cursor is not advanced; the
cycle itself returns without raising. -/
theorem render_failure_aborts (post : SinkCall → PostOutcome) (u n lastId : String)
    (e0 : Event) (tl good rest : List Event) (bad : Event)
    (hsplit : (limitNewEvents (extractDelta (e0 :: tl) lastId)).reverse = good ++ bad :: rest)
    (hgood : ∀ e ∈ good, ((classifyProcess e).toOption).isSome = true)
    (hbad : (classifyProcess bad).toOption = none) :
    fetch_github_events post u n (Except.ok (e0 :: tl)) (some lastId) =
      ⟨some lastId, [], renderedSends good,
        (renderedSends good).map (send_telegram_message post), true⟩ := by
  have hdelta : extractDelta (e0 :: tl) lastId ≠ [] := by
    intro h0
    rw [h0] at hsplit
    simp [limitNewEvents] at hsplit
  have hd : dispatchBatch post (limitNewEvents (extractDelta (e0 :: tl) lastId)).reverse =
      (renderedSends good, (renderedSends good).map (send_telegram_message post), true) := by
    rw [hsplit]
    exact dispatchBatch_error post bad rest hbad good hgood
  simp only [fetch_github_events, if_neg hdelta, hd]

/-- Witness for the amended C2: on the concrete three-event batch with
the broken middle event, the cycle returns with exactly the send of the
oldest event, an error logged, and the cursor untouched. -/
theorem render_failure_aborts_witness :
    fetch_github_events postOk "u" "t" (Except.ok cexEvents) (some "c0") =
      ⟨some "c0", [], renderedSends [mkStar "1"],
        (renderedSends [mkStar "1"]).map (send_telegram_message postOk), true⟩ :=
  render_failure_aborts postOk "u" "t" "c0" (mkStar "3") [badPR "2", mkStar "1", mkStar "c0"]
    [mkStar "1"] [mkStar "3"] (badPR "2") (by decide) (by decide) (by decide)

/-- The length of a Python slice is the slice bound capped by the string
length. -/
theorem pySlice_length (s : String) (n : Nat) : (pySlice s n).length = min n s.length := by
  have h1 : (pySlice s n).length = (s.toList.take n).length := rfl
  have h2 : s.toList.length = s.length := rfl
  rw [h1, List.length_take, h2]

/-- Counterexample to C9 as stated: the 80-character commit message of
the claim renders as its first 45 characters plus the ellipsis marker,
not its first 50; and a multi-line description within its bound is kept
whole, not reduced to its first line. -/
theorem truncation_cex :
    commitMessageLine c80 = pySlice c80 45 ++ "..." ∧
    commitMessageLine c80 ≠ pySlice c80 50 ++ "..." ∧
    prBodyLine "first line\nsecond line" = "first line\nsecond line" ∧
    firstLine "first line\nsecond line" ≠ "first line\nsecond line" := by
  decide

/-- Claim C9 amended: commit messages are first reduced to their first
line and truncated at 45 characters with an ellipsis marker when longer;
pull-request titles and descriptions are truncated at 60 and 80
characters respectively with the marker, without first-line reduction;
fields within their bound are left intact. -/
theorem truncation_rule (m t b : String) :
    ((firstLine m).length ≤ 45 → commitMessageLine m = firstLine m) ∧
    (45 < (firstLine m).length →
      commitMessageLine m = pySlice (firstLine m) 45 ++ "..." ∧
      (commitMessageLine m).length = 48) ∧
    (t.length ≤ 60 → prTitleLine t = t) ∧
    (60 < t.length → prTitleLine t = pySlice t 60 ++ "..." ∧ (prTitleLine t).length = 63) ∧
    (b.length ≤ 80 → prBodyLine b = b) ∧
    (80 < b.length → prBodyLine b = pySlice b 80 ++ "..." ∧ (prBodyLine b).length = 83) := by
  refine ⟨?_, ?_, ?_, ?_, ?_, ?_⟩
  · intro h
    simp [commitMessageLine, Nat.not_lt.mpr h]
  · intro h
    have he : commitMessageLine m = pySlice (firstLine m) 45 ++ "..." := by
      simp [commitMessageLine, h]
    refine ⟨he, ?_⟩
    rw [he, String.length_append, pySlice_length, Nat.min_eq_left (Nat.le_of_lt h)]
    decide
  · intro h
    simp [prTitleLine, Nat.not_lt.mpr h]
  · intro h
    have he : prTitleLine t = pySlice t 60 ++ "..." := by simp [prTitleLine, h]
    refine ⟨he, ?_⟩
    rw [he, String.length_append, pySlice_length, Nat.min_eq_left (Nat.le_of_lt h)]
    decide
  · intro h
    simp [prBodyLine, Nat.not_lt.mpr h]
  · intro h
    have he : prBodyLine b = pySlice b 80 ++ "..." := by simp [prBodyLine, h]
    refine ⟨he, ?_⟩
    rw [he, String.length_append, pySlice_length, Nat.min_eq_left (Nat.le_of_lt h)]
    decide

/-- Witness for the amended C9: the concrete 80-character commit message
renders as its first 45 characters plus the marker, 48 characters in
all. -/
theorem truncation_rule_witness :
    commitMessageLine c80 = pySlice (firstLine c80) 45 ++ "..." ∧
    (commitMessageLine c80).length = 48 :=
  (truncation_rule c80 "t" "b").2.1 (by decide)

/-- Every month length of the calendar model is at most 31. -/
theorem daysInMonth_le (y m : Nat) : daysInMonth y m ≤ 31 := by
  unfold daysInMonth
  split
  · split <;> omega
  · split <;> omega

/-- A successfully parsed timestamp has in-range naive fields. -/
theorem fromisoformat_bounds (s : String) (dt : PyDateTime)
    (h : fromisoformat s = some dt) :
    dt.month ≤ 12 ∧ dt.day ≤ 31 ∧ dt.hour ≤ 23 ∧ dt.minute ≤ 59 := by
  unfold fromisoformat at h
  cases hr : rawParse s.toList with
  | none => rw [hr] at h; cases h
  | some tup =>
    obtain ⟨y, mo, d, hh, mi, ss⟩ := tup
    rw [hr] at h
    dsimp only at h
    by_cases hv : validDT y mo d hh mi ss = true
    · rw [if_pos hv] at h
      cases h
      simp only [validDT, Bool.and_eq_true, decide_eq_true_eq] at hv
      obtain ⟨⟨⟨⟨⟨⟨⟨⟨-, -⟩, -⟩, hmo⟩, -⟩, hd⟩, hh⟩, hmi⟩, -⟩ := hv
      exact ⟨hmo, le_trans hd (daysInMonth_le y mo), hh, hmi⟩
    · rw [if_neg hv] at h
      cases h

/-- Two-digit padding yields a two-character string for every value below
one hundred. -/
theorem pad2_length : ∀ n, n < 100 → (pad2 n).length = 2 := by decide

/-- The strftime pattern of the program yields an eleven-character string
for in-range fields. -/
theorem strftimeMdHm_length (dt : PyDateTime) (hmo : dt.month < 100) (hd : dt.day < 100)
    (hh : dt.hour < 100) (hmi : dt.minute < 100) : (strftimeMdHm dt).length = 11 := by
  have l1 : ("/" : String).length = 1 := rfl
  have l2 : (" " : String).length = 1 := rfl
  have l3 : (":" : String).length = 1 := rfl
  simp [strftimeMdHm, String.length_append, pad2_length _ hmo, pad2_length _ hd,
    pad2_length _ hh, pad2_length _ hmi, l1, l2, l3]

/-- Claim C10: format_datetime is total: for every input string it
returns the month/day hour:minute rendering of the parsed timestamp when
the Z-normalized input parses (an eleven-character string), and the
literal string unknown when it does not; a trailing Z is accepted. -/
theorem format_datetime_total :
    (∀ s, (fromisoformat (pyReplace s "Z" "+00:00") = none ∧ format_datetime s = "unknown")
      ∨ (∃ dt, fromisoformat (pyReplace s "Z" "+00:00") = some dt ∧
          format_datetime s = strftimeMdHm dt ∧ (format_datetime s).length = 11)) ∧
    format_datetime "2024-05-06T07:08:09Z" = "05/06 07:08" ∧
    format_datetime "not a timestamp" = "unknown" := by
  refine ⟨?_, by decide, by decide⟩
  intro s
  cases h : fromisoformat (pyReplace s "Z" "+00:00") with
  | none => exact Or.inl ⟨rfl, by simp [format_datetime, h]⟩
  | some dt =>
    obtain ⟨hmo, hd, hh, hmi⟩ := fromisoformat_bounds _ _ h
    have hlen := strftimeMdHm_length dt (by omega) (by omega) (by omega) (by omega)
    exact Or.inr ⟨dt, rfl, by simp [format_datetime, h], by simp [format_datetime, h, hlen]⟩

end LoaApp
